import Mathlib

/-!
Verification development for the ArcLang MCP server orchestration core
(`src/mcp-server/src/arclang_mcp/`).  The Python sources are shallowly
embedded: each Python function that the claims depend on is translated to an
executable Lean definition over `List Char` / `String`, with Python
exceptions modelled by `Except String` and CPython builtins (`str.split`,
`str.strip`, `int(...)`) modelled by explicit helpers with the same
observable behaviour on the inputs of interest.
-/

deriving instance DecidableEq for Except

set_option maxRecDepth 40000

/-! ## Python string primitives -/

/-- Model of CPython `str.split(sep)` for a one-character separator: splits at
every occurrence of the separator, keeping empty pieces. -/
def splitChar (c : Char) : List Char → List (List Char)
  | [] => [[]]
  | x :: xs =>
    match splitChar c xs with
    | [] => [[]]
    | h :: t => if x == c then [] :: h :: t else (x :: h) :: t

/-- Substring test on character lists, the model of Python `pat in s`. -/
def containsSub (pat : List Char) : List Char → Bool
  | [] => pat.isEmpty
  | x :: xs => pat.isPrefixOf (x :: xs) || containsSub pat xs

/-- Model of Python `pat in s` on strings. -/
def containsStr (s pat : String) : Bool :=
  containsSub pat.data s.data

/-- Characters treated as whitespace by Python `str.strip()` / `str.split()`. -/
def isPySpace (c : Char) : Bool :=
  c == ' ' || c == '\t' || c == '\n' || c == '\r' || c == '\x0b' || c == '\x0c'

/-- Model of Python `str.strip()`. -/
def pyStrip (s : String) : String :=
  String.mk (((s.data.dropWhile isPySpace).reverse.dropWhile isPySpace).reverse)

/-- Model of Python `str.rstrip("%")`. -/
def rstripPct (s : String) : String :=
  String.mk ((s.data.reverse.dropWhile (fun c => c == '%')).reverse)

/-- Digits of a decimal numeral folded into a natural number. -/
def digitsToNat (ds : List Char) : Nat :=
  ds.foldl (fun a c => a * 10 + (c.toNat - 48)) 0

/-- Model of CPython `int(s)` on the strings this code base feeds it: optional
surrounding whitespace, an optional sign, then a non-empty run of decimal
digits; anything else raises, modelled as `none`. -/
def pyInt (s : String) : Option Int :=
  match (pyStrip s).data with
  | [] => none
  | c :: rest =>
    let signed : Bool × List Char :=
      if c == '-' then (true, rest)
      else if c == '+' then (false, rest)
      else (false, c :: rest)
    if signed.2 ≠ [] && signed.2.all Char.isDigit then
      some (if signed.1 then -(digitsToNat signed.2 : Int) else (digitsToNat signed.2 : Int))
    else none

/-- Model of Python `s.split("\n")`, as used on captured stdout. -/
def pyLines (s : String) : List String :=
  (splitChar '\n' s.data).map String.mk

/-- Model of Python `line.split(":")[-1]`: the text after the last colon
(the whole line when it has no colon). -/
def lastColonField (line : String) : String :=
  String.mk ((splitChar ':' line.data).getLastD [])

/-- Splitting at every whitespace character, keeping empty pieces. -/
def splitAtSpace : List Char → List (List Char)
  | [] => [[]]
  | x :: xs =>
    match splitAtSpace xs with
    | [] => [[]]
    | h :: t => if isPySpace x then [] :: h :: t else (x :: h) :: t

/-- Model of no-argument Python `str.split()`: maximal runs of
non-whitespace characters, empty runs discarded. -/
def pyWords (s : String) : List String :=
  ((splitAtSpace s.data).filter (fun w => w ≠ [])).map String.mk

/-- Model of Python `s.startswith(pat)`. -/
def startsWithStr (s pat : String) : Bool :=
  pat.data.isPrefixOf s.data

/-- A single quote character, used to model `str(KeyError(k))`, which renders
the missing key inside quotes (see keyErrorMsg). -/
def pyQuote : String := String.mk ['\x27']

/-! ## `compiler/wrapper.py`: the process invoker -/

/-- The `ProcessResult` record produced by `ArcLangCompiler._run_command`:
exit status, captured stdout, captured stderr. -/
structure ProcessResult where
  returncode : Int
  stdout : String
  stderr : String
deriving DecidableEq

/-- The three ways the awaited subprocess interaction can end, the input to
the `try/except` ladder in `_run_command`: normal completion with an exit
status and captured streams, `asyncio.TimeoutError`, or any other launch or
I/O failure carrying its message (`str(e)`). -/
inductive ExecOutcome where
  | completed (returncode : Int) (stdout stderr : String)
  | timedOut
  | failed (message : String)
deriving DecidableEq

/-- Embedding of `ArcLangCompiler._run_command` (wrapper.py lines 189-219):
the `try` body yields the completed result; `except asyncio.TimeoutError`
yields returncode -1 with the timeout message; `except Exception as e`
yields returncode -1 with `str(e)`.  The function is total: every outcome is
normalised into a `ProcessResult`, never re-raised. -/
def runCommand (timeout : Nat) (outcome : ExecOutcome) : ProcessResult :=
  match outcome with
  | .completed rc out err => ⟨rc, out, err⟩
  | .timedOut => ⟨-1, "", "Command timed out after " ++ (toString timeout ++ " seconds")⟩
  | .failed msg => ⟨-1, "", msg⟩

/-! ## `compiler/wrapper.py`: the output parser -/

/-- The metrics dictionary built by `_parse_metrics`.  A field is `none` when
the corresponding key was never assigned (absent from the Python dict) and
`some v` when the last matching line assigned `v`. -/
structure Metrics where
  requirements : Option Int
  components : Option Int
  functions : Option Int
  traces : Option Int
deriving DecidableEq

/-- The empty metrics dictionary `{}`. -/
def emptyMetrics : Metrics := ⟨none, none, none, none⟩

/-- The numeric value a metric line contributes:
`int(line.split(":")[-1].strip())`, `none` when `int` raises. -/
def metricValue (line : String) : Option Int :=
  pyInt (pyStrip (lastColonField line))

/-- One iteration of the `for` loop of `_parse_metrics` (wrapper.py lines
224-232): the `if/elif` ladder on label containment; a matched label with a
non-numeric trailing value raises `ValueError` out of the whole parse. -/
def parseMetricsLine (m : Metrics) (line : String) : Except String Metrics :=
  if containsStr line "Requirements:" then
    match metricValue line with
    | some v => .ok { m with requirements := some v }
    | none => .error ("invalid literal for int with base 10: " ++ pyStrip (lastColonField line))
  else if containsStr line "Components:" then
    match metricValue line with
    | some v => .ok { m with components := some v }
    | none => .error ("invalid literal for int with base 10: " ++ pyStrip (lastColonField line))
  else if containsStr line "Functions:" then
    match metricValue line with
    | some v => .ok { m with functions := some v }
    | none => .error ("invalid literal for int with base 10: " ++ pyStrip (lastColonField line))
  else if containsStr line "Traces:" then
    match metricValue line with
    | some v => .ok { m with traces := some v }
    | none => .error ("invalid literal for int with base 10: " ++ pyStrip (lastColonField line))
  else
    .ok m

/-- The `for` loop of `_parse_metrics`, threading the dict; a raised
`ValueError` aborts the remaining iterations. -/
def parseMetricsList (m : Metrics) : List String → Except String Metrics
  | [] => .ok m
  | l :: ls =>
    match parseMetricsLine m l with
    | .error e => .error e
    | .ok m2 => parseMetricsList m2 ls

/-- Embedding of `ArcLangCompiler._parse_metrics` (wrapper.py lines 221-233). -/
def parseMetrics (output : String) : Except String Metrics :=
  parseMetricsList emptyMetrics (pyLines output)

/-- Embedding of `ArcLangCompiler._parse_coverage` (wrapper.py lines
243-251): first line containing `Coverage:` or `coverage:` whose trailing
field parses as an int wins; unparsable matches are skipped by the bare
`except: pass`; default 0. -/
def parseCoverageList : List String → Int
  | [] => 0
  | l :: ls =>
    if containsStr l "Coverage:" || containsStr l "coverage:" then
      match pyInt (rstripPct (pyStrip (lastColonField l))) with
      | some v => v
      | none => parseCoverageList ls
    else parseCoverageList ls

/-- Embedding of `ArcLangCompiler._parse_coverage` on a whole stdout. -/
def parseCoverage (output : String) : Int :=
  parseCoverageList (pyLines output)

/-- Embedding of `ArcLangCompiler._count_traces` (wrapper.py lines 253-261),
same shape as coverage parsing with the `Traces:` labels. -/
def countTracesList : List String → Int
  | [] => 0
  | l :: ls =>
    if containsStr l "Traces:" || containsStr l "traces:" then
      match pyInt (pyStrip (lastColonField l)) with
      | some v => v
      | none => countTracesList ls
    else countTracesList ls

/-- Embedding of `ArcLangCompiler._count_traces` on a whole stdout. -/
def countTraces (output : String) : Int :=
  countTracesList (pyLines output)

/-! ## `compiler/wrapper.py`: the compile facade -/

/-- The dict returned by `ArcLangCompiler.compile`. -/
structure CompileResult where
  success : Bool
  output : String
  errors : String
  metrics : Metrics
deriving DecidableEq

/-- Embedding of the result construction of `ArcLangCompiler.compile`
(wrapper.py lines 41-46) applied to the `ProcessResult` of its
`_run_command` call: `metrics` is `_parse_metrics(stdout)` when the exit
status is 0 (so a `ValueError` from the parse propagates out of `compile`)
and the empty dict otherwise. -/
def compileOutcome (r : ProcessResult) : Except String CompileResult :=
  match (if r.returncode == 0 then parseMetrics r.stdout else .ok emptyMetrics) with
  | .error e => .error e
  | .ok m => .ok ⟨r.returncode == 0, r.stdout, r.stderr, m⟩

/-- Boolean success test for `Except`, used to state totality of parses. -/
def exceptOk {ε α : Type} : Except ε α → Bool
  | .ok _ => true
  | .error _ => false

/-! ## `ai/generator.py`: the generation facade

The Anthropic client call (`self.client.messages.create(...)` followed by
`message.content[0].text`) is an external network interaction; its outcome is
passed in as a `BackendOutcome`: either the response text, or the message of
the exception the call raised.  `AIGenerator.__init__` sets `self.client` to
a client object when an API key is configured and to `None` otherwise, which
is modelled by the `hasClient` flag. -/

/-- Outcome of one backend call: the response text of
`message.content[0].text`, or the exception it raised, carrying `str(e)`. -/
inductive BackendOutcome where
  | responds (text : String)
  | raises (message : String)
deriving DecidableEq

/-- Embedding of `AIGenerator._generate_requirement_id` (generator.py lines
191-195): uppercased initials of the first two whitespace-separated words of
the description, wrapped as `REQ-<initials>-001`. -/
def generateRequirementId (description : String) : String :=
  "REQ-" ++ (String.mk (((pyWords description).take 2).map
    (fun w => (w.data.headD ' ').toUpper)) ++ "-001")

/-- Embedding of `AIGenerator._generate_component_id` (generator.py lines
197-201). -/
def generateComponentId (description : String) : String :=
  "LC-" ++ (String.mk (((pyWords description).take 2).map
    (fun w => (w.data.headD ' ').toUpper)) ++ "-001")

/-- The fallback f-string of `generate_requirement` (generator.py lines
63-70), rendered with the synthesized identifier.  The inline conditional
`... if safety_level else ...` branches on Python truthiness, so both `None`
and the empty string take the `// safety_level: "TBD"` branch. -/
def requirementTemplate (description : String) (safetyLevel : Option String)
    (priority : String) : String :=
  "requirement \"" ++ (generateRequirementId description ++
    ("\" \x7b\n    description: \"" ++ (description ++
    ("\"\n    priority: \"" ++ (priority ++
    ("\"\n    " ++ ((match safetyLevel with
        | some sl =>
          if sl.data.isEmpty then "// safety_level: \"TBD\""
          else "safety_level: \"" ++ (sl ++ "\"")
        | none => "// safety_level: \"TBD\"") ++
    "\n    type: \"Functional\"\n    verification_method: \"Test\"\n\x7d")))))))

/-- The fallback f-string of `generate_component` (generator.py lines
121-133).  As in `requirementTemplate`, the inline conditional branches on
Python truthiness: both `None` and the empty string render the empty
falsy branch. -/
def componentTemplate (description : String) (componentType : String)
    (safetyLevel : Option String) : String :=
  "component \"" ++ (description ++
    ("\" \x7b\n    id: \"" ++ (generateComponentId description ++
    ("\"\n    type: \"" ++ (componentType ++
    ("\"\n    description: \"" ++ (description ++
    ("\"\n    " ++ ((match safetyLevel with
        | some sl =>
          if sl.data.isEmpty then ""
          else "safety_level: \"" ++ (sl ++ "\"")
        | none => "") ++
    ("\n    \n    function \"Process\" \x7b\n        id: \"LF-PROCESS\"\n" ++
    ("        inputs: [\"input_data\"]\n        outputs: [\"output_data\"]\n" ++
    "    \x7d\n\x7d")))))))))))

/-- Embedding of `AIGenerator.generate_requirement` (generator.py lines
21-70): with a configured client the backend response is returned stripped,
and a raised backend exception propagates (there is no `try/except` around
the call); with no client the deterministic fallback template is returned. -/
def generateRequirement (hasClient : Bool) (backend : BackendOutcome)
    (description : String) (safetyLevel : Option String) (priority : String) :
    Except String String :=
  if hasClient then
    match backend with
    | .responds text => .ok (pyStrip text)
    | .raises m => .error m
  else
    .ok (requirementTemplate description safetyLevel priority)

/-- Embedding of `AIGenerator.generate_component` (generator.py lines
72-133), same control flow as `generateRequirement`. -/
def generateComponent (hasClient : Bool) (backend : BackendOutcome)
    (description : String) (componentType : String)
    (safetyLevel : Option String) : Except String String :=
  if hasClient then
    match backend with
    | .responds text => .ok (pyStrip text)
    | .raises m => .error m
  else
    .ok (componentTemplate description componentType safetyLevel)

/-- JSON values, the result type of `json.loads` as used by
`suggest_architecture`. -/
inductive Json where
  | null
  | bool (b : Bool)
  | num (n : Int)
  | str (s : String)
  | arr (items : List Json)
  | obj (fields : List (String × Json))

/-- The dict returned by the `except` branch of `suggest_architecture`
(generator.py line 179): empty component and pattern lists. -/
def emptySuggestion : Json :=
  .obj [("components", .arr []), ("patterns", .arr [])]

/-- The fixed catalogue returned by `suggest_architecture` when no client is
configured (generator.py lines 182-189). -/
def fallbackSuggestion : Json :=
  .obj [
    ("components", .arr [
      .obj [("name", .str "Sensor Interface"), ("type", .str "Logical"),
            ("description", .str "Handles sensor data")],
      .obj [("name", .str "Controller"), ("type", .str "Logical"),
            ("description", .str "Main control logic")],
      .obj [("name", .str "Actuator Interface"), ("type", .str "Logical"),
            ("description", .str "Controls actuators")]]),
    ("patterns", .arr [.str "Layered Architecture", .str "Sense-Process-Actuate"])]

/-- Embedding of `AIGenerator.suggest_architecture` (generator.py lines
135-189).  `loads` is the behaviour of the stdlib `json.loads` on the
stripped response text, `none` meaning it raised; the `try` block covers
exactly the load, so a load failure yields the empty suggestion while a
failure of the backend call itself (made before the `try`) propagates. -/
def suggestArchitecture (hasClient : Bool) (backend : BackendOutcome)
    (loads : String → Option Json) : Except String Json :=
  if hasClient then
    match backend with
    | .raises m => .error m
    | .responds text =>
      match loads (pyStrip text) with
      | some j => .ok j
      | none => .ok emptySuggestion
  else
    .ok fallbackSuggestion

/-! ## `tools/core.py`: the compile and trace-analysis tools -/

/-- A JSON-shaped tool-call argument value as used by the core tools
(string paths, boolean flags). -/
inductive ArgValue where
  | str (s : String)
  | bool (b : Bool)
deriving DecidableEq

/-- The `arguments` dict of a tool call. -/
abbrev Args := List (String × ArgValue)

/-- Model of `args[k]`: a missing key raises `KeyError(k)`, whose `str()` is
the key wrapped in single quotes. -/
def lookupArg (args : Args) (k : String) : Except String ArgValue :=
  match args.find? (fun kv => kv.1 == k) with
  | some kv => .ok kv.2
  | none => .error (pyQuote ++ (k ++ pyQuote))

/-- Model of `args.get(k, d)`. -/
def getArgD (args : Args) (k : String) (d : ArgValue) : ArgValue :=
  match args.find? (fun kv => kv.1 == k) with
  | some kv => kv.2
  | none => d

/-- Python truthiness of an argument value, as used by `if validate:`. -/
def pyTruthy : ArgValue → Bool
  | .bool b => b
  | .str s => !s.data.isEmpty

/-- Model of `str()` on an argument value fed to `Path(...)`. -/
def argToStr : ArgValue → String
  | .str s => s
  | .bool b => if b then "True" else "False"

/-- Model of `Path(p).name`: the last `/`-separated component. -/
def pathName (p : String) : String :=
  String.mk ((splitChar '/' p.data).getLastD [])

/-- Embedding of `CoreTools._resolve_path` (core.py lines 200-205). -/
def resolvePath (workspace p : String) : String :=
  if startsWithStr p "/" then p else workspace ++ ("/" ++ p)

/-- The argument vector built by `ArcLangCompiler.compile` (wrapper.py lines
32-37). -/
def buildCompileCmd (binary modelPath : String) (validate optimize : Bool) :
    List String :=
  [binary, "build", modelPath] ++
    ((if validate then ["--validate"] else []) ++
     (if optimize then ["--optimize"] else []))

/-- The report string built by the success/failure branches of
`CoreTools._compile` (core.py lines 46-66).  The compile result dict always
has a `metrics` key, never a `validation` or `output_path` key, so the
metrics block is always rendered, the validation block never is, and the
output line falls back to `N/A`. -/
def renderCompile (modelPath : String) (c : CompileResult) : String :=
  if c.success then
    "✅ Compilation successful\n\n" ++ ("**Model**: " ++ (pathName modelPath ++
      ("\n**Requirements**: " ++ (toString (c.metrics.requirements.getD 0) ++
      ("\n**Components**: " ++ (toString (c.metrics.components.getD 0) ++
      ("\n**Functions**: " ++ (toString (c.metrics.functions.getD 0) ++
      ("\n**Traces**: " ++ (toString (c.metrics.traces.getD 0) ++
      ("\n" ++ "\n**Output**: N/A")))))))))))
  else
    "❌ Compilation failed\n\n**Errors**:\n" ++ c.errors

/-- Embedding of `CoreTools._compile` (core.py lines 34-66) composed with
`ArcLangCompiler.compile`.  The external subprocess behaviour is the
`proc` parameter; the second component is the spy record of subprocess
invocations (argument vectors), so the empty list means no subprocess was
spawned.  A missing `model_path` key raises `KeyError` before the compiler
is ever called. -/
def compileTool (binary workspace : String) (args : Args) (timeout : Nat)
    (proc : ExecOutcome) : Except String String × List (List String) :=
  match lookupArg args "model_path" with
  | .error e => (.error e, [])
  | .ok v =>
    let modelPath := resolvePath workspace (argToStr v)
    let validate := pyTruthy (getArgD args "validate" (.bool true))
    let optimize := pyTruthy (getArgD args "optimize" (.bool false))
    let cmd := buildCompileCmd binary modelPath validate optimize
    match compileOutcome (runCommand timeout proc) with
    | .error e => (.error e, [cmd])
    | .ok c => (.ok (renderCompile modelPath c), [cmd])

/-- The dispatcher's `try/except` (server.py lines 345-365) specialised to
the `arclang_compile` route: a raised exception becomes the single
`Error: <message>` text payload. -/
def dispatchCompile (binary workspace : String) (args : Args) (timeout : Nat)
    (proc : ExecOutcome) : List String × List (List String) :=
  match compileTool binary workspace args timeout proc with
  | (.ok r, inv) => ([r], inv)
  | (.error e, inv) => (["Error: " ++ e], inv)

/-- The dict returned by `ArcLangCompiler.trace_analysis` (wrapper.py lines
63-83): coverage and trace count parsed from stdout, and the gaps dict,
which is the fixed two-key dict from `_parse_gaps` when `show_gaps` is set
and the empty (falsy) dict otherwise. -/
structure TraceResult where
  coverage : Int
  totalTraces : Int
  gapsPresent : Bool
deriving DecidableEq

/-- Embedding of `ArcLangCompiler.trace_analysis` applied to the stdout of
its subprocess (the returncode is not consulted). -/
def traceAnalysis (stdout : String) (showGaps : Bool) : TraceResult :=
  ⟨parseCoverage stdout, countTraces stdout, showGaps⟩

/-- The report string built by `CoreTools._trace_analysis` (core.py lines
107-137).  The parsed coverage value is interpolated verbatim into the
`**Coverage**:` line; both untraced lists of the gaps dict are always empty,
so only the two-key `Gaps Found` header can appear. -/
def renderTraceAnalysis (modelPath : String) (r : TraceResult)
    (showGaps : Bool) : String :=
  let head := "🔗 **Traceability Analysis**\n\n" ++ ("**Model**: " ++
    (pathName modelPath ++ ("\n**Coverage**: " ++ (toString r.coverage ++
    ("%\n**Total Traces**: " ++ (toString r.totalTraces ++ "\n\n"))))))
  let withGaps :=
    if showGaps && r.gapsPresent then head ++ "⚠️  **Gaps Found** (2):\n\n"
    else head
  withGaps ++
    (if r.coverage ≥ 90 then "✅ Good traceability coverage"
     else if r.coverage ≥ 70 then
       "⚠️  Moderate traceability coverage - consider adding more traces"
     else "❌ Low traceability coverage - significant gaps detected")

/-- The text delivered to the client by `arclang_trace_analysis` for a
subprocess that printed `stdout`: `CoreTools._trace_analysis` composed with
`ArcLangCompiler.trace_analysis`. -/
def traceAnalysisReport (modelPath stdout : String) (showGaps : Bool) :
    String :=
  renderTraceAnalysis modelPath (traceAnalysis stdout showGaps) showGaps

/-! ## `server.py`: the tool dispatcher -/

/-- The routing ladder of `call_tool` (server.py lines 350-359).  The four
facades are the `execute` methods of the tool groups, each returning the
report text or raising, modelled as `Except`. -/
def routeTool (core gen saf integ : String → Args → Except String String)
    (name : String) (args : Args) : Except String String :=
  if startsWithStr name "arclang_compile" ||
      (name == "arclang_validate" || name == "arclang_trace_analysis" ||
       name == "arclang_export_diagram" || name == "arclang_info") then
    core name args
  else if startsWithStr name "arclang_generate" ||
      name == "arclang_suggest_architecture" then
    gen name args
  else if startsWithStr name "arclang_safety" ||
      name == "arclang_hazard_analysis" then
    saf name args
  else if startsWithStr name "arclang_git" ||
      startsWithStr name "arclang_plm" then
    integ name args
  else
    .error ("Unknown tool: " ++ name)

/-- Embedding of `call_tool` (server.py lines 345-365): the routed result is
wrapped in a one-element text-content list, and the `except Exception`
handler turns any raised exception into the single `Error: <message>`
payload. -/
def callTool (core gen saf integ : String → Args → Except String String)
    (name : String) (args : Args) : List String :=
  match routeTool core gen saf integ name args with
  | .ok r => [r]
  | .error e => ["Error: " ++ e]

/-! ## Characterisations used by the theorems -/

/-- Number of (possibly overlapping) occurrences of a pattern in a character
list; the patterns used below never overlap themselves, so this agrees with
Python `s.count(pat)`. -/
def countOccs (pat : List Char) : List Char → Nat
  | [] => 0
  | x :: xs => (if pat.isPrefixOf (x :: xs) then 1 else 0) + countOccs pat xs

/-- Occurrence count on strings. -/
def countStr (s pat : String) : Nat :=
  countOccs pat.data s.data

/-- A stdout line on which the `_parse_metrics` loop does not raise: either
no metric label is matched by the `if/elif` ladder, or the matched trailing
value is numeric. -/
def goodMetricLine (line : String) : Bool :=
  if containsStr line "Requirements:" then (metricValue line).isSome
  else if containsStr line "Components:" then (metricValue line).isSome
  else if containsStr line "Functions:" then (metricValue line).isSome
  else if containsStr line "Traces:" then (metricValue line).isSome
  else true

/-- One `_parse_metrics` iteration succeeds exactly on good lines, whatever
the dict accumulated so far. -/
lemma parseMetricsLine_ok (m : Metrics) (line : String) :
    exceptOk (parseMetricsLine m line) = goodMetricLine line := by
  unfold parseMetricsLine goodMetricLine
  cases h : metricValue line <;> simp only [h] <;> split_ifs <;>
    simp [exceptOk, Option.isSome]

/-- The `_parse_metrics` loop succeeds exactly when every line is good. -/
lemma parseMetricsList_ok (ls : List String) :
    ∀ m : Metrics, exceptOk (parseMetricsList m ls) = ls.all goodMetricLine := by
  induction ls with
  | nil => intro m; rfl
  | cons l ls ih =>
    intro m
    rw [List.all_cons]
    cases h : parseMetricsLine m l with
    | error e =>
      have hg : goodMetricLine l = false := by
        rw [← parseMetricsLine_ok m l, h]; rfl
      simp [parseMetricsList, h, hg, exceptOk]
    | ok m2 =>
      have hg : goodMetricLine l = true := by
        rw [← parseMetricsLine_ok m l, h]; rfl
      simp [parseMetricsList, h, hg, ih m2]

/-- A line the `_parse_coverage` loop reacts to. -/
def coverageLine (line : String) : Bool :=
  containsStr line "Coverage:" || containsStr line "coverage:"

/-- The `_parse_coverage` loop returns 0 when no line bears a coverage
label. -/
lemma parseCoverageList_zero (ls : List String) :
    ls.all (fun l => !coverageLine l) = true → parseCoverageList ls = 0 := by
  induction ls with
  | nil => intro _; rfl
  | cons l ls ih =>
    intro h
    simp only [List.all_cons, Bool.and_eq_true, Bool.not_eq_true'] at h
    unfold parseCoverageList
    rw [show (containsStr l "Coverage:" || containsStr l "coverage:") = false
      from h.1]
    simp only [Bool.false_eq_true, if_false]
    exact ih h.2

/-! ## Claim theorems -/

/-- C1 (counterexample): the metrics parse is not total and does not default
absent fields.  On `"Requirements: abc"` the matched label line has a
non-numeric trailing value and `int()` raises `ValueError` instead of the
line being skipped; and parsing the empty string yields a mapping in which
`requirements` is absent (`none`), not present as 0. -/
theorem C1_counterexample :
    exceptOk (parseMetrics "Requirements: abc") = false
  ∧ parseMetrics "" = .ok emptyMetrics
  ∧ emptyMetrics.requirements = none := by
  refine ⟨by decide, by decide, rfl⟩

/-- C1 (amended): `_parse_metrics` succeeds exactly when every line matching
a metric label (in the priority order of the `if/elif` ladder) carries a
numeric trailing value — a single malformed trailing value fails the whole
parse — and on the empty input it returns the empty mapping, with every
metric field absent rather than defaulted to 0. -/
theorem C1_metrics_parse_amended :
    (∀ output, exceptOk (parseMetrics output) = (pyLines output).all goodMetricLine)
  ∧ parseMetrics "" = .ok emptyMetrics :=
  ⟨fun output => parseMetricsList_ok (pyLines output) emptyMetrics, by decide⟩

/-- C2 (counterexample): with a configured backend client, a failing backend
call is not absorbed: `generate_requirement` has no `try/except` around
`self.client.messages.create`, so the exception propagates to the caller
instead of falling back to the template. -/
theorem C2_counterexample :
    generateRequirement true (.raises "Connection error") "brake pressure"
      none "High" = .error "Connection error" := rfl

/-- C2 (amended): the deterministic template fallback is taken only when no
backend client is configured, in which case all three generation calls
succeed with their pure templates (no I/O, no failure); with a configured
client, a backend-call failure propagates out of the Generation Facade as a
raised exception for all three calls. -/
theorem C2_fallback_amended (b : BackendOutcome) (d ct p m : String)
    (sl : Option String) (loads : String → Option Json) :
    generateRequirement false b d sl p = .ok (requirementTemplate d sl p)
  ∧ generateComponent false b d ct sl = .ok (componentTemplate d ct sl)
  ∧ suggestArchitecture false b loads = .ok fallbackSuggestion
  ∧ generateRequirement true (.raises m) d sl p = .error m
  ∧ generateComponent true (.raises m) d ct sl = .error m
  ∧ suggestArchitecture true (.raises m) loads = .error m :=
  ⟨rfl, rfl, rfl, rfl, rfl, rfl⟩

/-- C3 (confirmed): `_run_command` always returns a `ProcessResult`: on
timeout the exit status is exactly -1 and stderr is the timeout message
(which contains `timed out`); on any launch failure the exit status is -1
and stderr is the underlying error text; a completed process is passed
through unchanged.  The function's return type is `ProcessResult`, not
`Except`, so no fault is ever raised to the caller. -/
theorem C3_process_result_normalized (t : Nat) (rc : Int) (out err msg : String) :
    runCommand t .timedOut =
      ⟨-1, "", "Command timed out after " ++ (toString t ++ " seconds")⟩
  ∧ runCommand t (.failed msg) = ⟨-1, "", msg⟩
  ∧ runCommand t (.completed rc out err) = ⟨rc, out, err⟩
  ∧ containsStr (runCommand 30 .timedOut).stderr "timed out" = true :=
  ⟨rfl, rfl, rfl, by decide⟩

/-- C4 (confirmed): for every tool call the dispatcher returns exactly one
text payload; any exception raised by a facade, or by routing an unknown
tool name, is converted into the single payload `Error: <message>`, and a
normal facade result is delivered as the single payload. -/
theorem C4_single_payload
    (core gen saf integ : String → Args → Except String String)
    (name : String) (args : Args) :
    (callTool core gen saf integ name args).length = 1
  ∧ (∀ e, routeTool core gen saf integ name args = .error e →
      callTool core gen saf integ name args = ["Error: " ++ e])
  ∧ (∀ r, routeTool core gen saf integ name args = .ok r →
      callTool core gen saf integ name args = [r]) := by
  unfold callTool
  cases h : routeTool core gen saf integ name args with
  | ok r =>
    refine ⟨rfl, ?_, ?_⟩
    · intro e he
      exact absurd he (by simp)
    · intro r2 hr
      injection hr with h2
      rw [h2]
  | error e =>
    refine ⟨rfl, ?_, ?_⟩
    · intro e2 he
      injection he with h2
      rw [h2]
    · intro r hr
      exact absurd hr (by simp)

/-- C4 (witness): dispatching the unknown tool name `bogus_tool` yields the
single `Error:` payload. -/
theorem C4_single_payload_witness :
    callTool (fun _ _ => .ok "ok") (fun _ _ => .ok "ok") (fun _ _ => .ok "ok")
      (fun _ _ => .ok "ok") "bogus_tool" [] =
      ["Error: Unknown tool: bogus_tool"] :=
  (C4_single_payload (fun _ _ => .ok "ok") (fun _ _ => .ok "ok")
    (fun _ _ => .ok "ok") (fun _ _ => .ok "ok") "bogus_tool" []).2.1
    "Unknown tool: bogus_tool" rfl

/-- C5 (confirmed): a compile call whose arguments lack `model_path` fails
with the `KeyError` naming exactly that field, the dispatcher renders it as
the `Error:` payload, and the spy record of subprocess invocations is empty
— the failure happens before any external invocation. -/
theorem C5_missing_required_argument (binary workspace : String) (args : Args)
    (timeout : Nat) (proc : ExecOutcome)
    (h : args.find? (fun kv => kv.1 == "model_path") = none) :
    compileTool binary workspace args timeout proc =
      (.error (pyQuote ++ ("model_path" ++ pyQuote)), [])
  ∧ dispatchCompile binary workspace args timeout proc =
      (["Error: " ++ (pyQuote ++ ("model_path" ++ pyQuote))], []) := by
  have h1 : compileTool binary workspace args timeout proc =
      (.error (pyQuote ++ ("model_path" ++ pyQuote)), []) := by
    unfold compileTool lookupArg
    rw [h]
  refine ⟨h1, ?_⟩
  unfold dispatchCompile
  rw [h1]

/-- C5 (witness): a concrete compile call with only a `validate` flag and no
`model_path` produces the `Error:` payload naming the field and an empty
invocation record. -/
theorem C5_missing_required_argument_witness :
    dispatchCompile "arclang" "/workspace" [("validate", ArgValue.bool true)]
      30 ExecOutcome.timedOut =
      (["Error: " ++ (pyQuote ++ ("model_path" ++ pyQuote))], []) :=
  (C5_missing_required_argument "arclang" "/workspace"
    [("validate", ArgValue.bool true)] 30 ExecOutcome.timedOut (by decide)).2

/-- C6 (counterexample): compiling with exit code 0 and stdout
`"Requirements: 12\nComponents: 5\n"` does not yield the claimed metrics
mapping `{requirements:12, components:5, functions:0, traces:0}`: the
`functions` and `traces` keys are absent from the dict, not present as 0. -/
theorem C6_counterexample :
    compileOutcome ⟨0, "Requirements: 12\nComponents: 5\n", ""⟩ ≠
      .ok ⟨true, "Requirements: 12\nComponents: 5\n", "",
           ⟨some 12, some 5, some 0, some 0⟩⟩ := by decide

/-- C6 (amended): that scenario yields success=true with metrics
`{requirements:12, components:5}` and `functions`/`traces` absent; the
tool-layer renderer then displays the absent metrics as 0 via
`dict.get(_, 0)` defaults, so the rendered report shows all four counts. -/
theorem C6_compile_scenario_amended :
    compileOutcome ⟨0, "Requirements: 12\nComponents: 5\n", ""⟩ =
      .ok ⟨true, "Requirements: 12\nComponents: 5\n", "",
           ⟨some 12, some 5, none, none⟩⟩
  ∧ renderCompile "/ws/model.arc"
      ⟨true, "Requirements: 12\nComponents: 5\n", "",
       ⟨some 12, some 5, none, none⟩⟩ =
      "✅ Compilation successful\n\n**Model**: model.arc\n**Requirements**: 12\n**Components**: 5\n**Functions**: 0\n**Traces**: 0\n\n**Output**: N/A" := by
  refine ⟨by decide, by decide⟩

/-- C7 (counterexample): generated artifacts carry no generation-mode tag.
A configured backend that happens to answer with exactly the fallback
template produces an artifact identical to the no-backend fallback artifact,
so callers cannot distinguish backend-generated output from the placeholder;
moreover the synthesized identifier need not occur exactly once: for the
description `"Rx REQ-RR-001"` the synthesized identifier `REQ-RR-001` occurs
twice in the fallback block, and even with a description not containing the
identifier, a safety level of `"REQ-BP-001"` makes it occur twice. -/
theorem C7_counterexample :
    generateRequirement true
      (.responds (requirementTemplate "brake pressure" none "High"))
      "brake pressure" none "High"
      = generateRequirement false
      (.responds (requirementTemplate "brake pressure" none "High"))
      "brake pressure" none "High"
  ∧ countStr (requirementTemplate "Rx REQ-RR-001" none "High") "REQ-RR-001" = 2
  ∧ countStr (requirementTemplate "brake pressure" (some "REQ-BP-001") "High")
      "REQ-BP-001" = 2 := by
  refine ⟨by decide, by decide, by decide⟩

/-- C7 (amended): with no backend configured, generation returns the
deterministic fallback block, which is non-empty and embeds the synthesized
identifier at least once (it can occur more than once when the description
or safety level themselves contain it) — but no generation-mode tag is
attached to the artifact, so backend output and fallback output are not
distinguishable by the caller. -/
theorem C7_fallback_artifact_amended (b : BackendOutcome) (d : String)
    (sl : Option String) (p : String) :
    generateRequirement false b d sl p = .ok (requirementTemplate d sl p)
  ∧ 0 < (requirementTemplate d sl p).length
  ∧ ∃ rest, requirementTemplate d sl p =
      "requirement \"" ++ (generateRequirementId d ++ rest) := by
  refine ⟨rfl, ?_, ⟨_, rfl⟩⟩
  unfold requirementTemplate
  rw [String.length_append]
  have h13 : ("requirement \"" : String).length = 13 := rfl
  omega

/-- C8 (counterexample): for the description
`"brake pressure must not exceed limit"` the synthesized identifier is
`REQ-BP-001` (initials of `brake` and `pressure`), not the claimed
`REQ-BM-001`, which appears nowhere in the fallback block. -/
theorem C8_counterexample :
    generateRequirementId "brake pressure must not exceed limit" = "REQ-BP-001"
  ∧ ("REQ-BP-001" : String) ≠ "REQ-BM-001"
  ∧ containsStr (requirementTemplate "brake pressure must not exceed limit" none "High")
      "REQ-BM-001" = false := by
  refine ⟨by decide, by decide, by decide⟩

/-- C8 (amended): with no backend configured, that description yields the
identifier `REQ-BP-001` — the uppercased initials of the first two words —
embedded exactly once in the fallback block, whose full text is as stated. -/
theorem C8_requirement_id_amended :
    requirementTemplate "brake pressure must not exceed limit" none "High" =
      "requirement \"REQ-BP-001\" \x7b\n    description: \"brake pressure must not exceed limit\"\n    priority: \"High\"\n    // safety_level: \"TBD\"\n    type: \"Functional\"\n    verification_method: \"Test\"\n\x7d"
  ∧ countStr (requirementTemplate "brake pressure must not exceed limit" none "High")
      "REQ-BP-001" = 1 := by
  refine ⟨by decide, by decide⟩

/-- C9 (counterexample): the coverage value surfaced by trace analysis is
not clamped anywhere: a stdout of `"Coverage: 150%"` is parsed as 150 and
delivered verbatim in the rendered report, and `"Trace coverage: -5"` is
parsed as the negative value -5. -/
theorem C9_counterexample :
    parseCoverage "Coverage: 150%" = 150
  ∧ ¬(parseCoverage "Coverage: 150%" ≤ 100)
  ∧ parseCoverage "Trace coverage: -5" = -5
  ∧ parseCoverage "Trace coverage: -5" < 0
  ∧ containsStr (traceAnalysisReport "model.arc" "Coverage: 150%" true)
      "**Coverage**: 150%" = true := by
  refine ⟨by decide, by decide, by decide, by decide, by decide⟩

/-- C9 (amended): when no line of the stdout bears a coverage label, the
surfaced coverage is 0; the parsed value is otherwise delivered to the
client unclamped, so it is not in general bounded by 0 and 100. -/
theorem C9_coverage_amended (output : String)
    (h : (pyLines output).all (fun l => !coverageLine l) = true) :
    parseCoverage output = 0 :=
  parseCoverageList_zero (pyLines output) h

/-- C9 (witness): a stdout with no coverage-bearing line parses to 0. -/
theorem C9_coverage_amended_witness :
    (pyLines "No labels here\njust text").all (fun l => !coverageLine l) = true
  ∧ parseCoverage "No labels here\njust text" = 0 :=
  ⟨by decide, C9_coverage_amended "No labels here\njust text" (by decide)⟩

/-- C10 (confirmed): with a configured backend client, a response whose
stripped text is not valid JSON (the `json.loads` call raises) makes
`suggest_architecture` return exactly the empty suggestion
`{"components": [], "patterns": []}` without raising; this differs from the
generic fallback catalogue, which is returned only when no client is
configured. -/
theorem C10_invalid_json (loads : String → Option Json) (text : String)
    (h : loads (pyStrip text) = none) :
    suggestArchitecture true (.responds text) loads = .ok emptySuggestion
  ∧ emptySuggestion ≠ fallbackSuggestion
  ∧ suggestArchitecture false (.responds text) loads = .ok fallbackSuggestion := by
  refine ⟨?_, ?_, rfl⟩
  · simp [suggestArchitecture, h]
  · simp [emptySuggestion, fallbackSuggestion]

/-- C10 (witness): a concrete non-JSON response with a configured client
yields the empty suggestion, which differs from the fallback catalogue. -/
theorem C10_invalid_json_witness :
    suggestArchitecture true (.responds "not json") (fun _ => none) =
      .ok emptySuggestion
  ∧ emptySuggestion ≠ fallbackSuggestion :=
  ⟨(C10_invalid_json (fun _ => none) "not json" rfl).1,
   (C10_invalid_json (fun _ => none) "not json" rfl).2.1⟩
